import Mathlib

/-!
# Verification of `flipper_model.py`

A shallow embedding of the `FlipperModel` class from `src/flipper_model.py`:
a minimal user-account store backed by SQLite.

Modelling decisions, each traceable to the source:

* The database state is `Option (List UserRow)`: `none` means the `users`
  table has not been created, `some rows` means it exists and holds `rows`
  in insertion (rowid) order.
* SQLite values are modelled by `SqlValue` (integer, real, text, null).
  Python's `time.time()` returns a float; we model that float as a rational
  number `now : ℚ` passed explicitly to `create_user`.  SQLite's INTEGER
  column affinity stores a bound real as an integer exactly when the
  conversion is lossless (`storeTime`).
* A storage-layer error (`sqlite3.Error`) is modelled by `SqlError`; the
  only error reachable from the fixed queries of the source is a missing
  `users` table (for `CREATE TABLE`, the table already existing).
* `conn.execute` for the two SELECT queries used by the class is modelled
  by `execSelectUser` / `execSelectAll`, producing the cursor's column
  names (`cur.description`) and row list; `fetchone` / `fetchall` then
  materialize dictionaries exactly as the Python helpers `_fetchone` /
  `_fetchall` do, propagating errors through `Except`.
-/

/-- A SQLite storage value (subset relevant to this schema). -/
inductive SqlValue where
  | intVal (i : Int)
  | realVal (q : ℚ)
  | textVal (s : String)
  | nullVal
deriving Repr, DecidableEq

/-- A storage-layer error (`sqlite3.Error`). -/
inductive SqlError where
  | noSuchTable
  | tableAlreadyExists
deriving Repr, DecidableEq

/-- One row of the `users` table, in declaration order of the schema:
`username TEXT PRIMARY KEY, registration_time INTEGER, password TEXT`. -/
structure UserRow where
  username : String
  registration_time : SqlValue
  password : String
deriving Repr, DecidableEq

/-- Database state: `none` if the `users` table does not exist, otherwise
`some rows` with the rows in insertion order. -/
abbrev DB := Option (List UserRow)

/-- SQLite INTEGER column affinity applied to the float bound for
`registration_time`: a real is stored as an INTEGER exactly when the
conversion is lossless, otherwise it is kept as a REAL. -/
def storeTime (t : ℚ) : SqlValue :=
  if t.den = 1 then .intVal t.num else .realVal t

/-- Column names produced by `cur.description` for `SELECT * FROM users`,
in schema order. -/
def userColumns : List String := ["username", "registration_time", "password"]

/-- The tuple of values of a row, in schema column order. -/
def rowValues (r : UserRow) : List SqlValue :=
  [.textVal r.username, r.registration_time, .textVal r.password]

/-- `init_tables`: executes `CREATE TABLE users (...)`. Returns `true` and
creates the empty table on success; if the table already exists the raised
`sqlite3.Error` is caught and `false` is returned, state unchanged. -/
def init_tables : DB → Bool × DB
  | none => (true, some [])
  | some rows => (false, some rows)

/-- `create_user`: executes
`INSERT INTO users (username, password, registration_time) VALUES (?, ?, ?)`
with parameters `(username, password, time.time())` inside `with self.conn`.
A missing table or primary-key violation raises `sqlite3.Error`, the
transaction is rolled back, and `false` is returned with the state
unchanged; otherwise the row is appended and `true` returned. -/
def create_user (now : ℚ) (username password : String) : DB → Bool × DB
  | none => (false, none)
  | some rows =>
    if rows.any (fun r => r.username = username) then
      (false, some rows)
    else
      (true, some (rows ++ [⟨username, storeTime now, password⟩]))

/-- Result of `conn.execute` for a SELECT: either a storage error, or the
column names together with the resulting rows. -/
abbrev ExecResult := Except SqlError (List String × List (List SqlValue))

/-- `conn.execute("SELECT * FROM users WHERE username = ?", (username,))`:
fails if the table does not exist, otherwise yields the column names and
the matching rows in insertion order. -/
def execSelectUser (username : String) : DB → ExecResult
  | none => .error .noSuchTable
  | some rows =>
      .ok (userColumns, (rows.filter (fun r => r.username = username)).map rowValues)

/-- `conn.execute("SELECT * FROM users")`: fails if the table does not
exist, otherwise yields all rows in insertion order. -/
def execSelectAll : DB → ExecResult
  | none => .error .noSuchTable
  | some rows => .ok (userColumns, rows.map rowValues)

/-- `_fetchone`: materializes the first row of a query result as a
column-name-to-value mapping (`dict(zip(columns, row))`), `none` if the
cursor yields no row (or a falsy one, i.e. an empty tuple).  Storage
errors pass through untouched. -/
def fetchone (res : ExecResult) :
    Except SqlError (Option (List (String × SqlValue))) :=
  match res with
  | .error e => .error e
  | .ok (cols, rows) =>
    match rows with
    | [] => .ok none
    | r :: _ => if r.isEmpty then .ok none else .ok (some (cols.zip r))

/-- `_fetchall`: materializes every row of a query result as a
column-name-to-value mapping; the empty list if there are none.  Storage
errors pass through untouched. -/
def fetchall (res : ExecResult) :
    Except SqlError (List (List (String × SqlValue))) :=
  match res with
  | .error e => .error e
  | .ok (cols, rows) => .ok (rows.map fun r => cols.zip r)

/-- The three shapes a `get_user` call can produce in the source: a dict,
`None`, or the boolean `False`. -/
inductive GetResult where
  | found (record : List (String × SqlValue))
  | notFound
  | dbError
deriving Repr, DecidableEq

/-- `get_user`: `self._fetchone("SELECT * FROM users WHERE username = ?")`,
with any `sqlite3.Error` caught and turned into `False`.  The state is
returned alongside to make the (absence of) side effects explicit. -/
def get_user (username : String) (db : DB) : GetResult × DB :=
  match fetchone (execSelectUser username db) with
  | .error _ => (.dbError, db)
  | .ok none => (.notFound, db)
  | .ok (some rec) => (.found rec, db)

/-- Dictionary lookup in a materialized record. -/
def recordGet (rec : List (String × SqlValue)) (key : String) : Option SqlValue :=
  (rec.find? (fun kv => kv.1 = key)).map (fun kv => kv.2)

/-- The record `_fetchone` builds for a user row. -/
def userRecord (r : UserRow) : List (String × SqlValue) :=
  userColumns.zip (rowValues r)

/-- The rows of a database state (empty if the table does not exist). -/
def dbRows : DB → List UserRow
  | none => []
  | some rows => rows

/-- The usernames currently stored. -/
def dbUsernames (db : DB) : List String :=
  (dbRows db).map (fun r => r.username)

/-- The rational value of a stored `registration_time`. -/
def valToRat : SqlValue → ℚ
  | .intVal i => (i : ℚ)
  | .realVal q => q
  | _ => 0

/-- The `registration_time` field of a record, as a rational. -/
def regTimeRat (rec : List (String × SqlValue)) : ℚ :=
  match recordGet rec "registration_time" with
  | some v => valToRat v
  | none => 0

/-- States reachable from a fresh database by the operations of the class. -/
inductive Reachable : DB → Prop
  | empty : Reachable none
  | init (db : DB) : Reachable db → Reachable (init_tables db).2
  | create (now : ℚ) (u p : String) (db : DB) :
      Reachable db → Reachable (create_user now u p db).2
  | get (u : String) (db : DB) : Reachable db → Reachable (get_user u db).2

/-- A concrete non-integral clock value: 1000000000.5 seconds since the
epoch, a typical `time.time()` float. -/
def halfQ : ℚ := ⟨2000000001, 2, by decide, by decide⟩

/-! ## Helper lemmas -/

lemma get_user_state (u : String) (db : DB) : (get_user u db).2 = db := by
  unfold get_user
  rcases fetchone (execSelectUser u db) with e | o
  · rfl
  · cases o <;> rfl

lemma create_user_not_mem (now : ℚ) (u p : String) (rows : List UserRow)
    (h : ∀ r ∈ rows, r.username ≠ u) :
    create_user now u p (some rows)
      = (true, some (rows ++ [⟨u, storeTime now, p⟩])) := by
  have hany : rows.any (fun r => r.username = u) = false :=
    List.any_eq_false.mpr (by simpa using h)
  simp [create_user, hany]

lemma create_user_mem (now : ℚ) (u p : String) (db : DB)
    (h : ∃ r ∈ dbRows db, r.username = u) :
    create_user now u p db = (false, db) := by
  rcases h with ⟨r, hr, hru⟩
  cases db with
  | none => rfl
  | some rows =>
    have hany : rows.any (fun x => x.username = u) = true :=
      List.any_eq_true.mpr ⟨r, hr, by simp [hru]⟩
    simp [create_user, hany]

lemma get_user_filter_nil (u : String) (rows : List UserRow)
    (h : rows.filter (fun r => r.username = u) = []) :
    get_user u (some rows) = (.notFound, some rows) := by
  simp [get_user, execSelectUser, fetchone, h]

lemma get_user_filter_cons (u : String) (rows : List UserRow)
    (r : UserRow) (rs : List UserRow)
    (h : rows.filter (fun x => x.username = u) = r :: rs) :
    get_user u (some rows) = (.found (userRecord r), some rows) := by
  simp [get_user, execSelectUser, fetchone, h, rowValues, userRecord, userColumns]

lemma reachable_nodup : ∀ db : DB, Reachable db → (dbUsernames db).Nodup := by
  intro db h
  induction h with
  | empty => simp [dbUsernames, dbRows]
  | init db hdb ih =>
    cases db with
    | none => simp [init_tables, dbUsernames, dbRows]
    | some rows => simpa [init_tables, dbUsernames, dbRows] using ih
  | create now u p db hdb ih =>
    cases db with
    | none => simpa [create_user] using ih
    | some rows =>
      by_cases hmem : rows.any (fun r => r.username = u) = true
      · simpa [create_user, hmem] using ih
      · have hany : rows.any (fun r => r.username = u) = false :=
          Bool.eq_false_iff.mpr hmem
        have hnot : ∀ r ∈ rows, r.username ≠ u := by
          simpa using List.any_eq_false.mp hany
        simp only [create_user, hany, Bool.false_eq_true, if_false]
        simp only [dbUsernames, dbRows, List.map_append, List.map_cons,
          List.map_nil, List.nodup_append] at ih ⊢
        refine ⟨ih, List.nodup_singleton u, ?_⟩
        simp only [List.disjoint_singleton, List.mem_map]
        rintro ⟨r, hr, hru⟩
        exact hnot r hr hru
  | get u db hdb ih => simpa [get_user_state] using ih

lemma regTimeRat_userRecord (u p : String) (t : ℚ) :
    regTimeRat (userRecord ⟨u, storeTime t, p⟩) = t := by
  simp only [regTimeRat, recordGet, userRecord, userColumns, rowValues,
    List.zip, List.zipWith, List.find?]
  norm_num
  unfold storeTime
  by_cases h : t.den = 1
  · simp [h, valToRat, Rat.coe_int_num_of_den_eq_one h]
  · simp [h, valToRat]

/-! ## Claims -/

/-- Claim C1: for every (username, password) pair where the username is not
already present in the store (schema initialized, i.e. state `some rows`),
`create_user` returns `true` and a subsequent `get_user` returns a record
whose `password` field equals the supplied password. -/
theorem C1_create_then_get (now : ℚ) (u p : String) (rows : List UserRow)
    (h : ∀ r ∈ rows, r.username ≠ u) :
    (create_user now u p (some rows)).1 = true
    ∧ ∃ rec, (get_user u (create_user now u p (some rows)).2).1 = .found rec
        ∧ recordGet rec "password" = some (.textVal p) := by
  rw [create_user_not_mem now u p rows h]
  refine ⟨rfl, userRecord ⟨u, storeTime now, p⟩, ?_, ?_⟩
  · have h1 : rows.filter (fun x => x.username = u) = [] :=
      List.filter_eq_nil_iff.mpr (by simpa using h)
    have h2 : List.filter (fun x => x.username = u)
          (rows ++ [(⟨u, storeTime now, p⟩ : UserRow)])
        = [(⟨u, storeTime now, p⟩ : UserRow)] := by
      rw [List.filter_append, h1]
      simp
    rw [get_user_filter_cons u _ _ [] h2]
  · simp [recordGet, userRecord, userColumns, rowValues, List.find?]

theorem C1_create_then_get_witness :
    (create_user 7 "wes" "wespass" (some ([] : List UserRow))).1 = true
    ∧ ∃ rec, (get_user "wes"
          (create_user 7 "wes" "wespass" (some ([] : List UserRow))).2).1
            = .found rec
        ∧ recordGet rec "password" = some (.textVal "wespass") :=
  C1_create_then_get 7 "wes" "wespass" [] (by simp)

/-- Claim C2: when a row with the given username already exists, a second
`create_user` with that username (any password) returns `false` and leaves
the state — in particular the stored row — unchanged; and in every
reachable state each username appears in at most one row. -/
theorem C2_duplicate_fails_and_usernames_unique :
    (∀ (now : ℚ) (u p : String) (db : DB),
        (∃ r ∈ dbRows db, r.username = u) → create_user now u p db = (false, db))
    ∧ ∀ db : DB, Reachable db → (dbUsernames db).Nodup :=
  ⟨create_user_mem, reachable_nodup⟩

theorem C2_duplicate_fails_and_usernames_unique_witness :
    create_user 5 "wes" "x" (create_user 3 "wes" "p" (init_tables none).2).2
        = (false, (create_user 3 "wes" "p" (init_tables none).2).2)
    ∧ (dbUsernames (create_user 3 "wes" "p" (init_tables none).2).2).Nodup :=
  ⟨C2_duplicate_fails_and_usernames_unique.1 5 "wes" "x" _ (by decide),
   C2_duplicate_fails_and_usernames_unique.2 _
     (Reachable.create 3 "wes" "p" _ (Reachable.init none Reachable.empty))⟩

/-- Claim C3: `get_user` has exactly three result shapes: a
column-name-to-value record exactly when the table exists and holds a row
with that username, `notFound` (None) exactly when the table exists but no
row matches, and `dbError` (False) exactly when a storage error occurs,
i.e. the table does not exist. -/
theorem C3_get_user_shapes (db : DB) (u : String) :
    ((∃ rec, (get_user u db).1 = .found rec)
        ↔ ∃ rows, db = some rows ∧ ∃ r ∈ rows, r.username = u)
    ∧ ((get_user u db).1 = .notFound
        ↔ ∃ rows, db = some rows ∧ ∀ r ∈ rows, r.username ≠ u)
    ∧ ((get_user u db).1 = .dbError ↔ db = none) := by
  cases db with
  | none =>
    refine ⟨?_, ?_, ?_⟩ <;> simp [get_user, execSelectUser, fetchone]
  | some rows =>
    cases hf : rows.filter (fun x => x.username = u) with
    | nil =>
      have hg := get_user_filter_nil u rows hf
      have hnone : ∀ r ∈ rows, r.username ≠ u := by
        simpa using List.filter_eq_nil_iff.mp hf
      refine ⟨?_, ?_, ?_⟩ <;> simp [hg]
      · exact hnone
      · exact hnone
    | cons r rs =>
      have hg := get_user_filter_cons u rows r rs hf
      have hrmem : r ∈ rows.filter (fun x => x.username = u) :=
        hf ▸ List.mem_cons_self r rs
      have hr := List.mem_filter.mp hrmem
      have hru : r.username = u := by simpa using hr.2
      refine ⟨?_, ?_, ?_⟩ <;> simp [hg]
      · exact ⟨r, hr.1, hru⟩
      · exact ⟨r, hr.1, hru⟩

/-- Claim C4: on a fresh (empty) database the first `init_tables` call
returns `true`, and a second call on the resulting database returns
`false` rather than raising. -/
theorem C4_init_tables_once :
    (init_tables none).1 = true ∧ (init_tables (init_tables none).2).1 = false := by
  decide

/-- Claim C5 (refuted, code bug): the source binds Python's `time.time()`
— a float — for the INTEGER `registration_time` column, so a clock value
with a fractional part (here 1000000000.5) is stored as a REAL, not as an
integer number of seconds, contradicting the schema's own
`registration_time INTEGER  -- seconds since epoch` declaration. -/
theorem C5_fractional_time_stored_as_real :
    (create_user halfQ "wes" "p" (init_tables none).2).2
        = some [⟨"wes", SqlValue.realVal halfQ, "p"⟩]
    ∧ ∀ i : Int, SqlValue.realVal halfQ ≠ SqlValue.intVal i := by
  refine ⟨by decide, fun i h => by cases h⟩

/-- Claim C6: after initializing the schema on an empty store and creating
wesc, roy and joe in that order (with a non-decreasing clock), fetching all
users returns exactly those 3 records in insertion order with matching
passwords, and their `registration_time` values are non-decreasing. -/
theorem C6_scenario (t1 t2 t3 : ℚ) (h12 : t1 ≤ t2) (h23 : t2 ≤ t3) :
    fetchall (execSelectAll
        (create_user t3 "joe" "joejoe"
          (create_user t2 "roy" "roypass"
            (create_user t1 "wesc" "wescpass" (init_tables none).2).2).2).2)
      = .ok [userRecord ⟨"wesc", storeTime t1, "wescpass"⟩,
             userRecord ⟨"roy", storeTime t2, "roypass"⟩,
             userRecord ⟨"joe", storeTime t3, "joejoe"⟩]
    ∧ regTimeRat (userRecord ⟨"wesc", storeTime t1, "wescpass"⟩)
        ≤ regTimeRat (userRecord ⟨"roy", storeTime t2, "roypass"⟩)
    ∧ regTimeRat (userRecord ⟨"roy", storeTime t2, "roypass"⟩)
        ≤ regTimeRat (userRecord ⟨"joe", storeTime t3, "joejoe"⟩) := by
  refine ⟨?_, ?_, ?_⟩
  · simp [init_tables, create_user, execSelectAll, fetchall, userRecord]
  · rw [regTimeRat_userRecord, regTimeRat_userRecord]
    exact h12
  · rw [regTimeRat_userRecord, regTimeRat_userRecord]
    exact h23

theorem C6_scenario_witness :
    fetchall (execSelectAll
        (create_user 3 "joe" "joejoe"
          (create_user 2 "roy" "roypass"
            (create_user 1 "wesc" "wescpass" (init_tables none).2).2).2).2)
      = .ok [userRecord ⟨"wesc", storeTime 1, "wescpass"⟩,
             userRecord ⟨"roy", storeTime 2, "roypass"⟩,
             userRecord ⟨"joe", storeTime 3, "joejoe"⟩]
    ∧ regTimeRat (userRecord ⟨"wesc", storeTime 1, "wescpass"⟩)
        ≤ regTimeRat (userRecord ⟨"roy", storeTime 2, "roypass"⟩)
    ∧ regTimeRat (userRecord ⟨"roy", storeTime 2, "roypass"⟩)
        ≤ regTimeRat (userRecord ⟨"joe", storeTime 3, "joejoe"⟩) :=
  C6_scenario 1 2 3 (by decide) (by decide)

/-- Claim C7: `_fetchone` propagates storage errors, returns `none` on an
empty result, and otherwise the first row as a column-name-to-value
mapping (given a well-formed result set: at least one column, every row of
the cursor's width); `_fetchall` propagates errors and maps every row. -/
theorem C7_fetch_helpers (cols : List String) (rows : List (List SqlValue))
    (e : SqlError) (hcols : cols ≠ [])
    (hlen : ∀ r ∈ rows, r.length = cols.length) :
    fetchone (.error e) = .error e
    ∧ fetchall (.error e) = .error e
    ∧ (rows = [] → fetchone (.ok (cols, rows)) = .ok none)
    ∧ (∀ r rs, rows = r :: rs →
        fetchone (.ok (cols, rows)) = .ok (some (cols.zip r)))
    ∧ fetchall (.ok (cols, rows)) = .ok (rows.map fun r => cols.zip r) := by
  refine ⟨rfl, rfl, ?_, ?_, rfl⟩
  · rintro rfl
    rfl
  · rintro r rs rfl
    have hne : r.isEmpty = false := by
      have hr := hlen r (List.mem_cons_self r rs)
      cases r with
      | nil =>
        cases cols with
        | nil => exact absurd rfl hcols
        | cons c cs => simp at hr
      | cons a as => rfl
    simp [fetchone, hne]

theorem C7_fetch_helpers_witness :
    fetchone (Except.error SqlError.noSuchTable)
        = Except.error SqlError.noSuchTable
    ∧ fetchall (Except.error SqlError.noSuchTable)
        = Except.error SqlError.noSuchTable
    ∧ ([[SqlValue.intVal 1]] = ([] : List (List SqlValue)) →
        fetchone (Except.ok (["username"], [[SqlValue.intVal 1]]))
          = Except.ok none)
    ∧ (∀ r rs, [[SqlValue.intVal 1]] = r :: rs →
        fetchone (Except.ok (["username"], [[SqlValue.intVal 1]]))
          = Except.ok (some (List.zip ["username"] r)))
    ∧ fetchall (Except.ok (["username"], [[SqlValue.intVal 1]]))
        = Except.ok ([[SqlValue.intVal 1]].map fun r => List.zip ["username"] r) :=
  C7_fetch_helpers ["username"] [[SqlValue.intVal 1]] SqlError.noSuchTable
    (by simp) (by simp)

/-- Claim C8: `create_user` performs no input validation: for every string
username not already present and every string password, including empty
strings, the call succeeds and the password is stored verbatim in the new
row. -/
theorem C8_no_validation (now : ℚ) (u p : String) (rows : List UserRow)
    (h : ∀ r ∈ rows, r.username ≠ u) :
    create_user now u p (some rows)
      = (true, some (rows ++ [⟨u, storeTime now, p⟩])) :=
  create_user_not_mem now u p rows h

theorem C8_no_validation_witness :
    create_user 2 "" "" (some ([] : List UserRow))
      = (true, some ([] ++ [(⟨"", storeTime 2, ""⟩ : UserRow)])) :=
  C8_no_validation 2 "" "" [] (by simp)

/-- Claim C9: `get_user` is read-only: the users table is identical before
and after the call, whatever the result shape. -/
theorem C9_get_user_readonly (u : String) (db : DB) : (get_user u db).2 = db :=
  get_user_state u db

/-- Claim C10: if the schema has never been initialized (the `users` table
does not exist, state `none`), `get_user` returns the storage-error
indicator `dbError` (boolean `False`) for every username. -/
theorem C10_get_user_no_table (u : String) :
    (get_user u (none : DB)).1 = .dbError := rfl
